import Mathlib

/-!
# Verification of the TARDIS notation engine (`tardis/util.py`)

A shallow embedding of the species/ionization notation engine of
`tardis/util.py`: the roman-numeral codec (`int_to_roman`, `roman_to_int`),
the element-symbol registry and its normalization
(`reformat_element_symbol`, `element_symbol2atomic_number`,
`atomic_number2symbol`), the species parser/formatter
(`species_string_to_tuple`, `species_tuple_to_string`) and the quantity
tokenizer (`parse_quantity`).

Strings are modelled as `List Char`; Python exceptions are modelled as an
explicit error inductive (`PyError`) with one variant per distinct
exception class / `ValueError` message raised by the source, and fallible
functions return `Except PyError _`.
-/

namespace TardisUtil

/-- Error kinds of the notation engine.  Each variant corresponds to a
distinct Python exception surfaced by `tardis/util.py`:
`valueRomanOutOfRange` is the `ValueError` "Argument must be between 1 and
3999" of `int_to_roman`; `valueInvalidNumeral` is the `ValueError` "input
is not a valid roman numeral" of `roman_to_int`; `valueIonizationTooHigh`
is the `ValueError` "Species given does not exist: ion number > atomic
number" of `species_string_to_tuple`; `malformedSpecies`,
`malformedElementSymbol` and `malformedQuantity` are the
`MalformedSpeciesError`, `MalformedElementSymbolError` and
`MalformedQuantityError` classes; `indexError` is the `IndexError` of
string indexing and `keyError` the `KeyError` of a dict lookup miss. -/
inductive PyError where
  | valueRomanOutOfRange
  | valueInvalidNumeral
  | valueIonizationTooHigh
  | malformedSpecies
  | malformedElementSymbol
  | malformedQuantity
  | indexError
  | keyError
  deriving DecidableEq

/-- The ordered greedy table `int_roman_tuples` of `int_to_roman`
(util.py lines 110-112), with the roman symbols as character lists. -/
def intRomanTuples : List (Nat × List Char) :=
  [(1000, ['M']), (900, ['C', 'M']), (500, ['D']), (400, ['C', 'D']),
   (100, ['C']), (90, ['X', 'C']), (50, ['L']), (40, ['X', 'L']),
   (10, ['X']), (9, ['I', 'X']), (5, ['V']), (4, ['I', 'V']), (1, ['I'])]

/-- The greedy loop of `int_to_roman` (util.py lines 114-118): for each
table entry append the symbol `n / value` times and continue with the
remainder (`int_input -= integer * count`, i.e. `n % value`). -/
def intToRomanCore : List (Nat × List Char) → Nat → List Char
  | [], _ => []
  | (v, r) :: rest, n => List.flatten (List.replicate (n / v) r) ++ intToRomanCore rest (n % v)

/-- `int_to_roman` (util.py lines 76-119): range-check `0 < n < 4000`
(raising the "Argument must be between 1 and 3999" `ValueError`
otherwise), then run the greedy table loop. -/
def int_to_roman (n : Int) : Except PyError (List Char) :=
  if 0 < n ∧ n < 4000 then .ok (intToRomanCore intRomanTuples n.toNat)
  else .error .valueRomanOutOfRange

/-- The numeral alphabet `nums` of `roman_to_int` (util.py line 157). -/
def romanNums : List Char := ['M', 'D', 'C', 'L', 'X', 'V', 'I']

/-- Face value of a roman character, `ints[nums.index(c)]`
(util.py lines 157-158, 165); only applied to members of `romanNums`. -/
def romanValue (c : Char) : Nat :=
  if c = 'M' then 1000 else if c = 'D' then 500 else if c = 'C' then 100
  else if c = 'L' then 50 else if c = 'X' then 10 else if c = 'V' then 5
  else 1

/-- The signed-sum loop of `roman_to_int` (util.py lines 163-177): a
character counts negative when the next character has a strictly larger
face value, and the last character always counts positive. -/
def signedSum : List Char → Int
  | [] => 0
  | [c] => (romanValue c : Int)
  | c :: d :: rest =>
      (if romanValue c < romanValue d then -(romanValue c : Int)
       else (romanValue c : Int)) + signedSum (d :: rest)

/-- `roman_to_int` (util.py lines 122-182): uppercase the input, reject
any character outside the numeral alphabet, compute the signed sum, then
re-encode and require byte-for-byte equality with the uppercased input
("Easiest test for validity"); the `ValueError` raised by `int_to_roman`
on an out-of-range sum propagates unchanged. -/
def roman_to_int (s : List Char) : Except PyError Int :=
  let up := s.map Char.toUpper
  if up.all (fun c => romanNums.elem c) then
    let result := signedSum up
    match int_to_roman result with
    | .ok r => if r = up then .ok result else .error .valueInvalidNumeral
    | .error e => .error e
  else .error .valueInvalidNumeral

/-- Decidable round-trip check for a single value `k+1`: encoding
succeeds and decoding the result returns `k+1`. -/
def romanRoundOk (k : Nat) : Bool :=
  match int_to_roman ((k : Int) + 1) with
  | .ok r =>
      match roman_to_int r with
      | .ok m => m == (k : Int) + 1
      | .error _ => false
  | .error _ => false

/-- Round-trip check over a contiguous block: `romanRoundFrom a n` checks
`romanRoundOk` for `a, a+1, ..., a+n-1`. -/
def romanRoundFrom : Nat → Nat → Bool
  | _, 0 => true
  | a, n + 1 => romanRoundOk a && romanRoundFrom (a + 1) n

set_option maxHeartbeats 4000000 in
set_option maxRecDepth 10000 in
/-- Exhaustive check of the roman round trip, block `[0, 500)`. -/
theorem romanRoundBlock0 : romanRoundFrom 0 500 = true := by decide

set_option maxHeartbeats 4000000 in
set_option maxRecDepth 10000 in
/-- Exhaustive check of the roman round trip, block `[500, 1000)`. -/
theorem romanRoundBlock1 : romanRoundFrom 500 500 = true := by decide

set_option maxHeartbeats 4000000 in
set_option maxRecDepth 10000 in
/-- Exhaustive check of the roman round trip, block `[1000, 1500)`. -/
theorem romanRoundBlock2 : romanRoundFrom 1000 500 = true := by decide

set_option maxHeartbeats 4000000 in
set_option maxRecDepth 10000 in
/-- Exhaustive check of the roman round trip, block `[1500, 2000)`. -/
theorem romanRoundBlock3 : romanRoundFrom 1500 500 = true := by decide

set_option maxHeartbeats 4000000 in
set_option maxRecDepth 10000 in
/-- Exhaustive check of the roman round trip, block `[2000, 2500)`. -/
theorem romanRoundBlock4 : romanRoundFrom 2000 500 = true := by decide

set_option maxHeartbeats 4000000 in
set_option maxRecDepth 10000 in
/-- Exhaustive check of the roman round trip, block `[2500, 3000)`. -/
theorem romanRoundBlock5 : romanRoundFrom 2500 500 = true := by decide

set_option maxHeartbeats 4000000 in
set_option maxRecDepth 10000 in
/-- Exhaustive check of the roman round trip, block `[3000, 3500)`. -/
theorem romanRoundBlock6 : romanRoundFrom 3000 500 = true := by decide

set_option maxHeartbeats 4000000 in
set_option maxRecDepth 10000 in
/-- Exhaustive check of the roman round trip, block `[3500, 3999)`. -/
theorem romanRoundBlock7 : romanRoundFrom 3500 499 = true := by decide

/-- A true block check yields `romanRoundOk` at every point of the block. -/
theorem romanRoundFrom_true :
    ∀ (n a : Nat), romanRoundFrom a n = true → ∀ k, k < n → romanRoundOk (a + k) = true := by
  intro n
  induction n with
  | zero => intro a _ k hk; omega
  | succ m ih =>
      intro a h k hk
      rw [romanRoundFrom, Bool.and_eq_true] at h
      cases k with
      | zero => simpa using h.1
      | succ j =>
          have hj := ih (a + 1) h.2 j (by omega)
          have ha : a + (j + 1) = a + 1 + j := by omega
          rw [ha]
          exact hj

/-- The roman round trip holds at every index below 3999. -/
theorem romanRoundOk_all (k : Nat) (hk : k < 3999) : romanRoundOk k = true := by
  by_cases h0 : k < 500
  · simpa using romanRoundFrom_true 500 0 romanRoundBlock0 k h0
  by_cases h1 : k < 1000
  · have := romanRoundFrom_true 500 500 romanRoundBlock1 (k - 500) (by omega)
    rwa [Nat.add_sub_cancel' (by omega)] at this
  by_cases h2 : k < 1500
  · have := romanRoundFrom_true 500 1000 romanRoundBlock2 (k - 1000) (by omega)
    rwa [Nat.add_sub_cancel' (by omega)] at this
  by_cases h3 : k < 2000
  · have := romanRoundFrom_true 500 1500 romanRoundBlock3 (k - 1500) (by omega)
    rwa [Nat.add_sub_cancel' (by omega)] at this
  by_cases h4 : k < 2500
  · have := romanRoundFrom_true 500 2000 romanRoundBlock4 (k - 2000) (by omega)
    rwa [Nat.add_sub_cancel' (by omega)] at this
  by_cases h5 : k < 3000
  · have := romanRoundFrom_true 500 2500 romanRoundBlock5 (k - 2500) (by omega)
    rwa [Nat.add_sub_cancel' (by omega)] at this
  by_cases h6 : k < 3500
  · have := romanRoundFrom_true 500 3000 romanRoundBlock6 (k - 3000) (by omega)
    rwa [Nat.add_sub_cancel' (by omega)] at this
  · have := romanRoundFrom_true 499 3500 romanRoundBlock7 (k - 3500) (by omega)
    rwa [Nat.add_sub_cancel' (by omega)] at this

/-- Unfolding of a successful `romanRoundOk` check into the explicit
encode/decode equations. -/
theorem roman_roundtrip_of_ok (k : Nat) (h : romanRoundOk k = true) :
    ∃ r, int_to_roman ((k : Int) + 1) = .ok r ∧ roman_to_int r = .ok ((k : Int) + 1) := by
  unfold romanRoundOk at h
  split at h
  · next r heq =>
      split at h
      · next m heq2 =>
          rw [beq_iff_eq] at h
          exact ⟨r, heq, by rw [heq2, h]⟩
      · next e heq2 => exact (Bool.false_ne_true h).elim
  · next e heq => exact (Bool.false_ne_true h).elim

/-! ## Element-symbol registry -/

/-- Modelled from the spec: the element-symbol registry is populated at
startup from the external data file `atomic_symbols.dat`, which is not
part of the sources; per the spec it is a bijective table mapping atomic
numbers 1..118 to canonically capitalized one/two-letter symbols, and we
embed the standard periodic-table symbols. -/
def atomic_symbols_data : List (Nat × String) :=
  [(1, "H"), (2, "He"), (3, "Li"), (4, "Be"), (5, "B"), (6, "C"), (7, "N"),
   (8, "O"), (9, "F"), (10, "Ne"), (11, "Na"), (12, "Mg"), (13, "Al"),
   (14, "Si"), (15, "P"), (16, "S"), (17, "Cl"), (18, "Ar"), (19, "K"),
   (20, "Ca"), (21, "Sc"), (22, "Ti"), (23, "V"), (24, "Cr"), (25, "Mn"),
   (26, "Fe"), (27, "Co"), (28, "Ni"), (29, "Cu"), (30, "Zn"), (31, "Ga"),
   (32, "Ge"), (33, "As"), (34, "Se"), (35, "Br"), (36, "Kr"), (37, "Rb"),
   (38, "Sr"), (39, "Y"), (40, "Zr"), (41, "Nb"), (42, "Mo"), (43, "Tc"),
   (44, "Ru"), (45, "Rh"), (46, "Pd"), (47, "Ag"), (48, "Cd"), (49, "In"),
   (50, "Sn"), (51, "Sb"), (52, "Te"), (53, "I"), (54, "Xe"), (55, "Cs"),
   (56, "Ba"), (57, "La"), (58, "Ce"), (59, "Pr"), (60, "Nd"), (61, "Pm"),
   (62, "Sm"), (63, "Eu"), (64, "Gd"), (65, "Tb"), (66, "Dy"), (67, "Ho"),
   (68, "Er"), (69, "Tm"), (70, "Yb"), (71, "Lu"), (72, "Hf"), (73, "Ta"),
   (74, "W"), (75, "Re"), (76, "Os"), (77, "Ir"), (78, "Pt"), (79, "Au"),
   (80, "Hg"), (81, "Tl"), (82, "Pb"), (83, "Bi"), (84, "Po"), (85, "At"),
   (86, "Rn"), (87, "Fr"), (88, "Ra"), (89, "Ac"), (90, "Th"), (91, "Pa"),
   (92, "U"), (93, "Np"), (94, "Pu"), (95, "Am"), (96, "Cm"), (97, "Bk"),
   (98, "Cf"), (99, "Es"), (100, "Fm"), (101, "Md"), (102, "No"),
   (103, "Lr"), (104, "Rf"), (105, "Db"), (106, "Sg"), (107, "Bh"),
   (108, "Hs"), (109, "Mt"), (110, "Ds"), (111, "Rg"), (112, "Cn"),
   (113, "Nh"), (114, "Fl"), (115, "Mc"), (116, "Lv"), (117, "Ts"),
   (118, "Og")]

/-- Coerce a string literal to the character-list representation used by
the embedding. -/
def str (s : String) : List Char := s.data

/-- The `symbol2atomic_number` dict of util.py lines 68-69: lookup of a
symbol in the registry. -/
def symbol2atomic_number (sym : List Char) : Option Nat :=
  (atomic_symbols_data.find? (fun p => p.2.data == sym)).map (fun p => p.1)

/-- The `atomic_number2symbol` dict of util.py line 70: lookup of an
atomic number in the registry (util.py line 412 accesses it directly,
raising `KeyError` on a miss). -/
def atomic_number2symbol (z : Nat) : Option (List Char) :=
  (atomic_symbols_data.find? (fun p => p.1 == z)).map (fun p => p.2.data)

/-- `reformat_element_symbol` (util.py lines 414-427):
`element_string[0].upper() + element_string[1:].lower()`; the unguarded
index `element_string[0]` raises `IndexError` on the empty string. -/
def reformat_element_symbol : List Char → Option (List Char)
  | [] => none
  | c :: rest => some (Char.toUpper c :: rest.map Char.toLower)

/-- `element_symbol2atomic_number` (util.py lines 402-406): normalize the
symbol, raise `MalformedElementSymbolError` when the normalized form is
not a registry key, else return the atomic number; the `IndexError` of
`reformat_element_symbol` on the empty string escapes unguarded. -/
def element_symbol2atomic_number (s : List Char) : Except PyError Nat :=
  match reformat_element_symbol s with
  | none => .error .indexError
  | some r =>
      match symbol2atomic_number r with
      | none => .error .malformedElementSymbol
      | some z => .ok z

/-! ## Species parsing and formatting -/

/-- Python 2 `\w` character class (no re.UNICODE): `[a-zA-Z0-9_]`. -/
def isPyWordChar (c : Char) : Bool := c.isAlphanum || c = '_'

/-- Python 2 `\s` character class / `str.split()` whitespace:
space, tab, newline, carriage return, vertical tab, form feed. -/
def isPySpace (c : Char) : Bool :=
  c = ' ' || c = '\t' || c = '\n' || c = '\r' || c = '\x0b' || c = '\x0c'

/-- One backtracking attempt of `re.match('^(\w+)\s*(\d+)', s)` with the
first group bound to the first `k` characters: skip the (maximal)
whitespace run after position `k`, then require a nonempty digit run,
which the greedy `\d+` takes maximally. -/
def tryMatchAt (s : List Char) (k : Nat) : Option (List Char × List Char) :=
  let rest := (s.drop k).dropWhile isPySpace
  let ds := rest.takeWhile Char.isDigit
  if ds = [] then none else some (s.take k, ds)

/-- Greedy backtracking over the first group's length, longest first. -/
def searchDown (s : List Char) : Nat → Option (List Char × List Char)
  | 0 => none
  | k + 1 =>
      match tryMatchAt s (k + 1) with
      | some r => some r
      | none => searchDown s k

/-- `re.match('^(\w+)\s*(\d+)', species_string)` (util.py line 355): the
greedy `\w+` starts from the maximal word-character run and backtracks
downward; the pattern is not end-anchored, so trailing characters after
the digit run are ignored. -/
def regexMatchSpecies (s : List Char) : Option (List Char × List Char) :=
  searchDown s (s.takeWhile isPyWordChar).length

/-- Accumulator loop behind `str.split()`: split on every whitespace run,
discarding empty fields. -/
def pySplitAux : List Char → List Char → List (List Char)
  | [], acc => if acc = [] then [] else [acc.reverse]
  | c :: rest, acc =>
      if isPySpace c then
        if acc = [] then pySplitAux rest []
        else acc.reverse :: pySplitAux rest []
      else pySplitAux rest (c :: acc)

/-- Python `str.split()` with no separator (util.py lines 358, 385). -/
def pySplit (s : List Char) : List (List Char) := pySplitAux s []

/-- Digit-run to number; `none` unless the run is nonempty and all
digits. -/
def digitRunToNat (ds : List Char) : Option Nat :=
  if ds ≠ [] ∧ ds.all Char.isDigit = true then
    some (ds.foldl (fun a c => a * 10 + (c.toNat - 48)) 0)
  else none

/-- Python 2 `int(string)` (util.py line 369): surrounding whitespace
stripped, optional sign, nonempty base-10 digit run. -/
def pyInt (t : List Char) : Option Int :=
  let t1 := ((t.dropWhile isPySpace).reverse.dropWhile isPySpace).reverse
  match t1 with
  | '+' :: ds => (digitRunToNat ds).map (fun n => (n : Int))
  | '-' :: ds => (digitRunToNat ds).map (fun n => -(n : Int))
  | ds => (digitRunToNat ds).map (fun n => (n : Int))

/-- The ionization-token resolution of `species_string_to_tuple`
(util.py lines 365-371): try `roman_to_int` and on `ValueError` (every
failure of `roman_to_int` on a string is a `ValueError`) fall back to
`int`; `none` when both fail. -/
def resolve_ion_number (t : List Char) : Option Int :=
  match roman_to_int t with
  | .ok n => some n
  | .error _ => pyInt t

/-- The tokenization of `species_string_to_tuple` (util.py lines
354-361): try the regex first and on failure (`AttributeError` from
`.groups()` on `None`) split on whitespace, requiring exactly two
fields (the tuple unpacking raises `ValueError` otherwise). -/
def speciesTokens (s : List Char) : Option (List Char × List Char) :=
  match regexMatchSpecies s with
  | some p => some p
  | none =>
      match pySplit s with
      | [a, b] => some (a, b)
      | _ => none

/-- `species_string_to_tuple` (util.py lines 352-376): tokenize (raising
`MalformedSpeciesError` when both tokenizations fail), resolve the
symbol (errors of `element_symbol2atomic_number` propagate as-is),
resolve the ionization token (raising `MalformedSpeciesError` when
unreadable), raise `ValueError` when `ion_number > atomic_number`, and
return `(atomic_number, ion_number - 1)`. -/
def species_string_to_tuple (s : List Char) : Except PyError (Nat × Int) :=
  match speciesTokens s with
  | none => .error .malformedSpecies
  | some (symTok, ionTok) =>
      match element_symbol2atomic_number symTok with
      | .error e => .error e
      | .ok z =>
          match resolve_ion_number ionTok with
          | none => .error .malformedSpecies
          | some ion =>
              if (z : Int) < ion then .error .valueIonizationTooHigh
              else .ok (z, ion - 1)

/-- Fueled decimal-digit expansion of a natural number. -/
def natToDecAux : Nat → Nat → List Char
  | 0, _ => []
  | fuel + 1, n =>
      if n = 0 then [] else natToDecAux fuel (n / 10) ++ [Char.ofNat (48 + n % 10)]

/-- Decimal rendering of a natural number. -/
def natToDec (n : Nat) : List Char := if n = 0 then ['0'] else natToDecAux (n + 1) n

/-- Python `'%d' % i`: decimal rendering of an integer. -/
def intToDec (i : Int) : List Char :=
  if i < 0 then '-' :: natToDec i.natAbs else natToDec i.toNat

/-- `species_tuple_to_string` (util.py lines 342-349): look the symbol up
in `atomic_number2symbol` (`KeyError` on a miss), then render
`'%s %s' % (symbol, int_to_roman(ion_number + 1))` when `roman_numerals`
is set and `'%s %d' % (symbol, ion_number)` otherwise. -/
def species_tuple_to_string (z : Nat) (ion : Int) (roman_numerals : Bool) :
    Except PyError (List Char) :=
  match atomic_number2symbol z with
  | none => .error .keyError
  | some sym =>
      if roman_numerals then
        match int_to_roman (ion + 1) with
        | .ok r => .ok (sym ++ ' ' :: r)
        | .error e => .error e
      else .ok (sym ++ ' ' :: intToDec ion)

/-! ## Quantity parsing -/

/-- Value of a Python float: a finite value (modelled as the exact
rational value of the decimal literal; IEEE binary rounding is not
modelled — the development only inspects integer-valued results, where
the two agree), an infinity, or NaN. -/
inductive PyFloat where
  | fin (q : ℚ)
  | pinf
  | ninf
  | nan
  deriving DecidableEq

/-- Numeric value of a digit run. -/
def digitsVal (ds : List Char) : Nat :=
  ds.foldl (fun a c => a * 10 + (c.toNat - 48)) 0

/-- Exponent application `q * 10^e` over the rationals (with the exact
`e = 0` case returning `q` unchanged). -/
def applyExp (q : ℚ) (e : Int) : ℚ :=
  if e = 0 then q
  else if 0 ≤ e then q * (10 : ℚ) ^ e.toNat
  else q / (10 : ℚ) ^ (-e).toNat

/-- Optional exponent suffix `[eE][+-]?digits` of a float literal; the
whole remainder must be consumed. -/
def expSuffix : List Char → Option Int
  | [] => some 0
  | c :: rest =>
      if c = 'e' ∨ c = 'E' then
        match rest with
        | '+' :: ds => (digitRunToNat ds).map (fun n => (n : Int))
        | '-' :: ds => (digitRunToNat ds).map (fun n => -(n : Int))
        | ds => (digitRunToNat ds).map (fun n => (n : Int))
      else none

/-- Body of a float literal after the sign:
`digits [. digits] [exp]` or `. digits [exp]`. -/
def floatBody (ds : List Char) : Option ℚ :=
  let ip := ds.takeWhile Char.isDigit
  let rest1 := ds.drop ip.length
  match rest1 with
  | '.' :: rest2 =>
      let fp := rest2.takeWhile Char.isDigit
      let rest3 := rest2.drop fp.length
      if ip = [] ∧ fp = [] then none
      else (expSuffix rest3).map
        (fun e => applyExp ((digitsVal (ip ++ fp) : ℚ) / (10 : ℚ) ^ fp.length) e)
  | rest2 =>
      if ip = [] then none
      else (expSuffix rest2).map (fun e => applyExp ((digitsVal ip : ℚ)) e)

/-- Float literal after sign stripping: `inf`, `infinity` and `nan`
(case-insensitive) or a decimal body. -/
def pyFloatUnsigned (ds : List Char) (neg : Bool) : Option PyFloat :=
  let low := ds.map Char.toLower
  if low = str "inf" ∨ low = str "infinity" then some (if neg then .ninf else .pinf)
  else if low = str "nan" then some .nan
  else (floatBody ds).map (fun q => .fin (if neg then -q else q))

/-- Python `float(string)` (util.py line 390): strip surrounding
whitespace, read an optional sign, then a float body or inf/nan word. -/
def pyFloat (t : List Char) : Option PyFloat :=
  let t1 := ((t.dropWhile isPySpace).reverse.dropWhile isPySpace).reverse
  match t1 with
  | '+' :: rest => pyFloatUnsigned rest false
  | '-' :: rest => pyFloatUnsigned rest true
  | rest => pyFloatUnsigned rest false

/-- `parse_quantity` (util.py lines 379-399): split on whitespace
unpacking into exactly two fields, parse the first as a float, then hand
the pair to the external measurement constructor — modelled, per the
spec's boundary, by the capability `okUnit`; every failure is re-signaled
as `MalformedQuantityError`, and the resulting quantity is modelled as
the (value, unit-token) pair. -/
def parse_quantity (okUnit : List Char → Bool) (s : List Char) :
    Except PyError (PyFloat × List Char) :=
  match pySplit s with
  | [v, un] =>
      match pyFloat v with
      | none => .error .malformedQuantity
      | some q => if okUnit un then .ok (q, un) else .error .malformedQuantity
  | _ => .error .malformedQuantity

/-! ## Supporting lemmas -/

/-- A digit can occur nowhere in a backtracking attempt's suffix when the
string holds no digit at all, so the attempt fails. -/
theorem tryMatchAt_none (s : List Char) (k : Nat)
    (h : ∀ c ∈ s, Char.isDigit c = false) : tryMatchAt s k = none := by
  have hsub : ∀ c ∈ (s.drop k).dropWhile isPySpace, Char.isDigit c = false := by
    intro c hc
    exact h c (List.drop_subset k s ((List.dropWhile_sublist isPySpace).subset hc))
  unfold tryMatchAt
  cases hdw : (s.drop k).dropWhile isPySpace with
  | nil => simp [hdw]
  | cons c rest =>
      have hc : Char.isDigit c = false := hsub c (by rw [hdw]; exact List.mem_cons_self c rest)
      simp [hdw, List.takeWhile_cons, hc]

/-- The species regex cannot match a string that holds no digit. -/
theorem regexMatch_none_of_noDigit (s : List Char)
    (h : ∀ c ∈ s, Char.isDigit c = false) : regexMatchSpecies s = none := by
  unfold regexMatchSpecies
  generalize (s.takeWhile isPyWordChar).length = m
  induction m with
  | zero => rfl
  | succ k ih =>
      rw [searchDown, tryMatchAt_none s (k + 1) h]
      exact ih

/-- Pushing a run of non-whitespace characters through the split
accumulator. -/
theorem pySplitAux_append_nospace :
    ∀ (xs : List Char), (∀ c ∈ xs, isPySpace c = false) →
      ∀ (rest acc : List Char),
        pySplitAux (xs ++ rest) acc = pySplitAux rest (xs.reverse ++ acc) := by
  intro xs
  induction xs with
  | nil => intro _ rest acc; simp
  | cons c cs ih =>
      intro h rest acc
      have hc : isPySpace c = false := h c (List.mem_cons_self c cs)
      have hcs : ∀ x ∈ cs, isPySpace x = false := fun x hx => h x (List.mem_cons_of_mem c hx)
      rw [List.cons_append]
      simp only [pySplitAux, hc]
      rw [ih hcs rest (c :: acc)]
      simp [List.append_assoc]

/-- Splitting a word followed by a space peels the word off. -/
theorem pySplit_word_cons (xs rest : List Char) (h0 : xs ≠ [])
    (h : ∀ c ∈ xs, isPySpace c = false) :
    pySplit (xs ++ ' ' :: rest) = xs :: pySplit rest := by
  unfold pySplit
  rw [pySplitAux_append_nospace xs h (' ' :: rest) []]
  simp [pySplitAux, isPySpace, h0]

/-- Splitting a single nonempty word yields that word. -/
theorem pySplit_word_single (xs : List Char) (h0 : xs ≠ [])
    (h : ∀ c ∈ xs, isPySpace c = false) : pySplit xs = [xs] := by
  unfold pySplit
  have haux := pySplitAux_append_nospace xs h [] []
  rw [List.append_nil] at haux
  rw [haux]
  simp [pySplitAux, h0]

/-- Two space-separated nonempty space-free words split into exactly that
pair. -/
theorem pySplit_two (xs ys : List Char) (hx0 : xs ≠ []) (hy0 : ys ≠ [])
    (hx : ∀ c ∈ xs, isPySpace c = false) (hy : ∀ c ∈ ys, isPySpace c = false) :
    pySplit (xs ++ ' ' :: ys) = [xs, ys] := by
  rw [pySplit_word_cons xs ys hx0 hx, pySplit_word_single ys hy0 hy]

/-- Three space-separated nonempty space-free words split into exactly
that triple. -/
theorem pySplit_three (xs ys zs : List Char) (hx0 : xs ≠ []) (hy0 : ys ≠ [])
    (hz0 : zs ≠ []) (hx : ∀ c ∈ xs, isPySpace c = false)
    (hy : ∀ c ∈ ys, isPySpace c = false) (hz : ∀ c ∈ zs, isPySpace c = false) :
    pySplit (xs ++ ' ' :: (ys ++ ' ' :: zs)) = [xs, ys, zs] := by
  rw [pySplit_word_cons xs (ys ++ ' ' :: zs) hx0 hx,
      pySplit_word_cons ys zs hy0 hy, pySplit_word_single zs hz0 hz]

/-- Unfolded form of `roman_to_int` with the `let` bindings expanded. -/
theorem roman_to_int_eq (s : List Char) :
    roman_to_int s =
      (if (s.map Char.toUpper).all (fun c => romanNums.elem c) then
        match int_to_roman (signedSum (s.map Char.toUpper)) with
        | .ok r =>
            if r = s.map Char.toUpper then .ok (signedSum (s.map Char.toUpper))
            else .error .valueInvalidNumeral
        | .error e => .error e
      else .error .valueInvalidNumeral) := rfl

/-- An `int_to_roman` failure is always the out-of-range error. -/
theorem int_to_roman_error (n : Int) (e : PyError)
    (h : int_to_roman n = .error e) : e = .valueRomanOutOfRange := by
  unfold int_to_roman at h
  split at h
  · exact Except.noConfusion h
  · injection h with h1
    exact h1.symm

/-- Helper wrapper: a boolean test of whether an `Except` is a success. -/
def exceptIsOk {α : Type} : Except PyError α → Bool
  | .ok _ => true
  | .error _ => false

/-- Helper composition: format a species tuple, then parse the rendered
string back (propagating a formatting error unchanged). -/
def formatThenParse (z : Nat) (ion : Int) (roman_numerals : Bool) :
    Except PyError (Nat × Int) :=
  match species_tuple_to_string z ion roman_numerals with
  | .ok s => species_string_to_tuple s
  | .error e => .error e

/-! ## Claim theorems -/

/-- C1 (code bug evidence): the roman round trip holds at `(14, 1)`, but
the decimal round trip does not — `species_tuple_to_string (14, 1)
false` renders `"Si 1"` (the zero-based ion number), which parses back
to `(14, 0)`, not `(14, 1)`. -/
theorem species_roundtrip_decimal_bug :
    formatThenParse 14 1 true = .ok (14, 1) ∧ formatThenParse 14 1 false = .ok (14, 0) :=
  ⟨rfl, rfl⟩

/-- C2: for every integer `n` in `[1, 3999]`, the greedy 13-pair-table
encoder succeeds and decoding the encoded string returns exactly `n`. -/
theorem roman_roundtrip (n : Int) (h1 : 0 < n) (h2 : n < 4000) :
    ∃ r, int_to_roman n = .ok r ∧ roman_to_int r = .ok n := by
  obtain ⟨k, rfl⟩ : ∃ k : Nat, n = (k : Int) + 1 := ⟨(n - 1).toNat, by omega⟩
  exact roman_roundtrip_of_ok k (romanRoundOk_all k (by omega))

/-- Witness for C2 at `n = 1999`. -/
theorem roman_roundtrip_witness :
    (0 : Int) < 1999 ∧ (1999 : Int) < 4000 ∧
      ∃ r, int_to_roman 1999 = .ok r ∧ roman_to_int r = .ok 1999 :=
  ⟨by decide, by decide, roman_roundtrip 1999 (by decide) (by decide)⟩

/-- C3 (code bug evidence): the roman branch renders the 1-based stage
(`"Si II"`), but the decimal branch renders the zero-based ion number
itself, giving `"Si 1"` for `(14, 1)` instead of `"Si 2"`. -/
theorem species_format_stage_bug :
    species_tuple_to_string 14 1 true = .ok (str "Si II")
    ∧ species_tuple_to_string 14 1 false = .ok (str "Si 1")
    ∧ str "Si 1" ≠ str "Si 2" :=
  ⟨rfl, rfl, by decide⟩

/-- C4 counterexample: a stage-0 token does not fail — `"Si 0"` parses
successfully to `(14, -1)`, though the claim requires an
`IonizationOutOfRange` failure. -/
theorem species_parse_stage_zero_counterexample :
    species_string_to_tuple (str "Si 0") = .ok (14, -1) := rfl

/-- C4 (amended): once the tokens resolve to an atomic number `z` and a
1-based stage, the parse fails with the ionization `ValueError` iff
`stage > z` (no lower bound is checked), and otherwise returns
`(z, stage - 1)`. -/
theorem ionization_bound_check :
    ∀ (s symTok ionTok : List Char) (z : Nat) (stage : Int),
      speciesTokens s = some (symTok, ionTok) →
      element_symbol2atomic_number symTok = .ok z →
      resolve_ion_number ionTok = some stage →
      (species_string_to_tuple s = .error .valueIonizationTooHigh ↔ (z : Int) < stage)
      ∧ (stage ≤ (z : Int) → species_string_to_tuple s = .ok (z, stage - 1)) := by
  intro s symTok ionTok z stage ht hz hr
  have hred : species_string_to_tuple s =
      if (z : Int) < stage then .error .valueIonizationTooHigh else .ok (z, stage - 1) := by
    simp only [species_string_to_tuple, ht, hz, hr]
  rw [hred]
  refine ⟨⟨fun h => ?_, fun h => by rw [if_pos h]⟩, fun hle => by rw [if_neg (not_lt.mpr hle)]⟩
  by_cases hlt : (z : Int) < stage
  · exact hlt
  · rw [if_neg hlt] at h
    exact Except.noConfusion h

/-- Witness for C4 at `"Fe 99"` (stage 99 over atomic number 26). -/
theorem ionization_bound_check_witness :
    species_string_to_tuple (str "Fe 99") = .error .valueIonizationTooHigh :=
  ((ionization_bound_check (str "Fe 99") (str "Fe") (str "99") 26 99 rfl rfl rfl).1).mpr
    (by decide)

/-- C5 counterexample: `"MMMM"` is made of valid numeral characters and
fails, but with the out-of-range error propagated from the re-encoding
step, not with `InvalidNumeral` as claimed. -/
theorem roman_decode_mmmm_counterexample :
    roman_to_int (str "MMMM") = .error .valueRomanOutOfRange
    ∧ PyError.valueRomanOutOfRange ≠ PyError.valueInvalidNumeral :=
  ⟨rfl, by decide⟩

/-- C5 (amended): decoding fails with `InvalidNumeral` on any character
outside the numeral alphabet, and on valid-character strings whose
signed sum lies in `[1, 3999]` but re-encodes to something other than
the uppercased input (for sums outside that range the out-of-range error
escapes instead); `"IIII"` and `"IL"` fail with `InvalidNumeral`; and a
successful decode certifies `encode (decode s) = uppercase s`. -/
theorem roman_decode_canonical_only :
    (∀ s, (s.map Char.toUpper).all (fun c => romanNums.elem c) = false →
        roman_to_int s = .error .valueInvalidNumeral)
    ∧ (∀ (s : List Char) (v : Int),
        (s.map Char.toUpper).all (fun c => romanNums.elem c) = true →
        signedSum (s.map Char.toUpper) = v → 0 < v → v < 4000 →
        intToRomanCore intRomanTuples v.toNat ≠ s.map Char.toUpper →
        roman_to_int s = .error .valueInvalidNumeral)
    ∧ roman_to_int (str "IIII") = .error .valueInvalidNumeral
    ∧ roman_to_int (str "IL") = .error .valueInvalidNumeral
    ∧ (∀ (s : List Char) (v : Int),
        roman_to_int s = .ok v → int_to_roman v = .ok (s.map Char.toUpper)) := by
  refine ⟨?_, ?_, rfl, rfl, ?_⟩
  · intro s h
    rw [roman_to_int_eq, h]
    rfl
  · intro s v hall hsum h0 h4 hne
    have hen : int_to_roman v = .ok (intToRomanCore intRomanTuples v.toNat) := by
      unfold int_to_roman
      rw [if_pos ⟨h0, h4⟩]
    calc roman_to_int s
        = if intToRomanCore intRomanTuples v.toNat = s.map Char.toUpper
          then Except.ok v else Except.error PyError.valueInvalidNumeral := by
          rw [roman_to_int_eq, hall, hsum, hen]
          rfl
      _ = .error .valueInvalidNumeral := if_neg hne
  · intro s v h
    rw [roman_to_int_eq] at h
    split at h
    · split at h
      · next r hen =>
          split at h
          · next heq =>
              injection h with hv
              rw [← hv, hen, heq]
          · exact Except.noConfusion h
      · next e hen => exact Except.noConfusion h
    · exact Except.noConfusion h

/-- Witness for C5 at `"AB"` (invalid characters), `"VV"` (valid
characters, non-canonical) and `"IV"` (successful decode). -/
theorem roman_decode_canonical_only_witness :
    roman_to_int (str "AB") = .error .valueInvalidNumeral
    ∧ roman_to_int (str "VV") = .error .valueInvalidNumeral
    ∧ int_to_roman 4 = .ok ((str "IV").map Char.toUpper) :=
  ⟨roman_decode_canonical_only.1 (str "AB") (by decide),
   roman_decode_canonical_only.2.1 (str "VV") 10 (by decide) (by decide) (by decide)
     (by decide) (by decide),
   roman_decode_canonical_only.2.2.2.2 (str "IV") 4 rfl⟩

/-- C6 counterexample: trailing characters after the digit run are
accepted — `"Si 2x"` parses successfully to `(14, 1)`, though the claim
requires a `MalformedSpecies` failure. -/
theorem species_parse_trailing_counterexample :
    species_string_to_tuple (str "Si 2x") = .ok (14, 1) := rfl

/-- C6 (amended): the parse fails with `MalformedSpecies` exactly when
both tokenizations fail — the (non-end-anchored) regex, which ignores
everything after the digit run, and the exactly-two-field whitespace
split; in particular a string without any digit and without exactly two
whitespace-separated fields fails. -/
theorem species_grammar_characterization :
    (∀ s, regexMatchSpecies s = none → (pySplit s).length ≠ 2 →
        species_string_to_tuple s = .error .malformedSpecies)
    ∧ (∀ s p, species_string_to_tuple s = .ok p → speciesTokens s ≠ none)
    ∧ (∀ s, (∀ c ∈ s, Char.isDigit c = false) → regexMatchSpecies s = none)
    ∧ species_string_to_tuple (str "Si 2 trailing") = .ok (14, 1) := by
  refine ⟨?_, ?_, regexMatch_none_of_noDigit, rfl⟩
  · intro s h1 h2
    unfold species_string_to_tuple speciesTokens
    rw [h1]
    cases hsp : pySplit s with
    | nil => rfl
    | cons a t =>
        cases t with
        | nil => rfl
        | cons b t2 =>
            cases t2 with
            | nil => rw [hsp] at h2; simp at h2
            | cons c t3 => rfl
  · intro s p hok hn
    unfold species_string_to_tuple at hok
    rw [hn] at hok
    exact Except.noConfusion hok

/-- Witness for C6 at `"++"` (no digit, one field). -/
theorem species_grammar_characterization_witness :
    species_string_to_tuple (str "++") = .error .malformedSpecies
    ∧ speciesTokens (str "Si2") ≠ none :=
  ⟨species_grammar_characterization.1 (str "++")
      (species_grammar_characterization.2.2.1 (str "++") (by decide)) (by decide),
   species_grammar_characterization.2.1 (str "Si2") (14, 1) rfl⟩

/-- C7 counterexample: with an all-accepting unit resolver,
`"1 erg / s"` still fails with `MalformedQuantity` — the unit token is
not "the entire remainder after the first whitespace run" as claimed,
because the split is on every whitespace run. -/
theorem quantity_split_counterexample :
    parse_quantity (fun _ => true) (str "1 erg / s") = .error .malformedQuantity := rfl

/-- C7 (amended): `parse_quantity` splits on every whitespace run and
requires exactly two fields, so a unit with internal whitespace is
rejected; it fails with `MalformedQuantity` when the split does not give
two fields, when the first field is not a float, or when the resolver
rejects the second; `"5 km/s"` yields value 5 with unit `"km/s"`, and
`"abc"` fails. -/
theorem quantity_tokenization :
    (∀ (okUnit : List Char → Bool) (s : List Char), (pySplit s).length ≠ 2 →
        parse_quantity okUnit s = .error .malformedQuantity)
    ∧ (∀ (okUnit : List Char → Bool) (s v un : List Char), pySplit s = [v, un] →
        pyFloat v = none → parse_quantity okUnit s = .error .malformedQuantity)
    ∧ (∀ (okUnit : List Char → Bool) (s v un : List Char) (q : PyFloat),
        pySplit s = [v, un] → pyFloat v = some q → okUnit un = false →
        parse_quantity okUnit s = .error .malformedQuantity)
    ∧ (∀ (okUnit : List Char → Bool) (s v un : List Char) (q : PyFloat),
        pySplit s = [v, un] → pyFloat v = some q → okUnit un = true →
        parse_quantity okUnit s = .ok (q, un))
    ∧ (∀ (okUnit : List Char → Bool) (v u1 u2 : List Char),
        v ≠ [] → u1 ≠ [] → u2 ≠ [] →
        (∀ c ∈ v, isPySpace c = false) → (∀ c ∈ u1, isPySpace c = false) →
        (∀ c ∈ u2, isPySpace c = false) →
        parse_quantity okUnit (v ++ ' ' :: (u1 ++ ' ' :: u2)) = .error .malformedQuantity)
    ∧ (∀ okUnit : List Char → Bool, okUnit (str "km/s") = true →
        parse_quantity okUnit (str "5 km/s") = .ok (.fin 5, str "km/s"))
    ∧ (∀ okUnit : List Char → Bool,
        parse_quantity okUnit (str "abc") = .error .malformedQuantity) := by
  refine ⟨?_, ?_, ?_, ?_, ?_, ?_, ?_⟩
  · intro okUnit s h2
    unfold parse_quantity
    cases hsp : pySplit s with
    | nil => rfl
    | cons a t =>
        cases t with
        | nil => rfl
        | cons b t2 =>
            cases t2 with
            | nil => rw [hsp] at h2; simp at h2
            | cons c t3 => rfl
  · intro okUnit s v un hsp hf
    simp only [parse_quantity, hsp, hf]
  · intro okUnit s v un q hsp hf hok
    simp [parse_quantity, hsp, hf, hok]
  · intro okUnit s v un q hsp hf hok
    simp [parse_quantity, hsp, hf, hok]
  · intro okUnit v u1 u2 hv0 hu10 hu20 hv hu1 hu2
    simp only [parse_quantity, pySplit_three v u1 u2 hv0 hu10 hu20 hv hu1 hu2]
  · intro okUnit hok
    have hsp : pySplit (str "5 km/s") = [str "5", str "km/s"] := rfl
    have hf : pyFloat (str "5") = some (.fin 5) := rfl
    simp [parse_quantity, hsp, hf, hok]
  · intro okUnit
    have hsp : pySplit (str "abc") = [str "abc"] := rfl
    simp only [parse_quantity, hsp]

/-- Witness for C7 at `"xyz"`, `"1 erg /s"` and `"5 km/s"`. -/
theorem quantity_tokenization_witness :
    parse_quantity (fun _ => true) (str "xyz") = .error .malformedQuantity
    ∧ parse_quantity (fun _ => true) (str "1 erg /s") = .error .malformedQuantity
    ∧ parse_quantity (fun _ => true) (str "5 km/s") = .ok (.fin 5, str "km/s") :=
  ⟨quantity_tokenization.1 (fun _ => true) (str "xyz") (by decide),
   quantity_tokenization.2.2.2.2.1 (fun _ => true) (str "1") (str "erg") (str "/s")
     (by decide) (by decide) (by decide) (by decide) (by decide) (by decide),
   quantity_tokenization.2.2.2.2.2.1 (fun _ => true) rfl⟩

/-- C8: the three notations `"Si 2"`, `"Si II"` and `"Si2"` all parse to
`(14, 1)`; the ionization token is resolved roman-first with an integer
fallback; and when a token resolves in neither way (with the symbol
known) the parse fails with `MalformedSpecies`. -/
theorem species_three_notations :
    species_string_to_tuple (str "Si 2") = .ok (14, 1)
    ∧ species_string_to_tuple (str "Si II") = .ok (14, 1)
    ∧ species_string_to_tuple (str "Si2") = .ok (14, 1)
    ∧ (∀ (t : List Char) (n : Int), roman_to_int t = .ok n → resolve_ion_number t = some n)
    ∧ (∀ (t : List Char) (e : PyError), roman_to_int t = .error e →
        resolve_ion_number t = pyInt t)
    ∧ (∀ (s symTok ionTok : List Char) (z : Nat),
        speciesTokens s = some (symTok, ionTok) →
        element_symbol2atomic_number symTok = .ok z →
        resolve_ion_number ionTok = none →
        species_string_to_tuple s = .error .malformedSpecies) := by
  refine ⟨rfl, rfl, rfl, ?_, ?_, ?_⟩
  · intro t n h
    simp only [resolve_ion_number, h]
  · intro t e h
    simp only [resolve_ion_number, h]
  · intro s symTok ionTok z ht hz hr
    simp only [species_string_to_tuple, ht, hz, hr]

/-- Witness for C8: roman resolution of `"II"`, fallback for `"MMMM"`,
and the unreadable token `"ab"` after symbol `"Si"`. -/
theorem species_three_notations_witness :
    resolve_ion_number (str "II") = some 2
    ∧ resolve_ion_number (str "MMMM") = pyInt (str "MMMM")
    ∧ species_string_to_tuple (str "Si ab") = .error .malformedSpecies :=
  ⟨species_three_notations.2.2.2.1 (str "II") 2 rfl,
   species_three_notations.2.2.2.2.1 (str "MMMM") .valueRomanOutOfRange rfl,
   species_three_notations.2.2.2.2.2 (str "Si ab") (str "Si") (str "ab") 14 rfl rfl rfl⟩

/-- C9: element-symbol lookup on the empty string escapes the error
taxonomy with the `IndexError` of the unguarded `element_string[0]`,
while on any non-empty input it either succeeds or fails with the
`MalformedElementSymbolError`. -/
theorem symbol_lookup_empty_escape :
    element_symbol2atomic_number [] = .error .indexError
    ∧ ∀ (c : Char) (rest : List Char),
        (∃ z, element_symbol2atomic_number (c :: rest) = .ok z)
        ∨ element_symbol2atomic_number (c :: rest) = .error .malformedElementSymbol := by
  refine ⟨rfl, ?_⟩
  intro c rest
  cases h : symbol2atomic_number (Char.toUpper c :: List.map Char.toLower rest) with
  | none =>
      right
      simp only [element_symbol2atomic_number, reformat_element_symbol, h]
  | some z =>
      left
      refine ⟨z, ?_⟩
      simp only [element_symbol2atomic_number, reformat_element_symbol, h]

/-- C10: the formatter performs no ionization-range validation — for a
registered atomic number the decimal rendering succeeds for every
integer ion number, the roman rendering succeeds whenever
`1 ≤ ion_number + 1 ≤ 3999`, and no call ever fails with the parser's
ionization `ValueError`. -/
theorem format_no_ionization_check :
    ∀ (z : Nat) (ion : Int), (atomic_number2symbol z).isSome = true →
      exceptIsOk (species_tuple_to_string z ion false) = true
      ∧ (0 < ion + 1 → ion + 1 < 4000 →
          exceptIsOk (species_tuple_to_string z ion true) = true)
      ∧ (∀ b, species_tuple_to_string z ion b ≠ .error .valueIonizationTooHigh) := by
  intro z ion hz
  obtain ⟨sym, hsym⟩ := Option.isSome_iff_exists.mp hz
  refine ⟨?_, ?_, ?_⟩
  · simp [species_tuple_to_string, hsym, exceptIsOk]
  · intro h1 h2
    have hen : int_to_roman (ion + 1) = .ok (intToRomanCore intRomanTuples (ion + 1).toNat) := by
      unfold int_to_roman
      rw [if_pos ⟨h1, h2⟩]
    simp [species_tuple_to_string, hsym, hen, exceptIsOk]
  · intro b
    cases b with
    | false => simp [species_tuple_to_string, hsym]
    | true =>
        cases hen : int_to_roman (ion + 1) with
        | ok r => simp [species_tuple_to_string, hsym, hen]
        | error e =>
            have he := int_to_roman_error (ion + 1) e hen
            subst he
            simp [species_tuple_to_string, hsym, hen]

/-- Witness for C10 at `z = 14`, `ion = 200` (far above the atomic
number). -/
theorem format_no_ionization_check_witness :
    exceptIsOk (species_tuple_to_string 14 200 false) = true
    ∧ (0 < (200 : Int) + 1 → (200 : Int) + 1 < 4000 →
        exceptIsOk (species_tuple_to_string 14 200 true) = true)
    ∧ (∀ b, species_tuple_to_string 14 200 b ≠ .error .valueIonizationTooHigh) :=
  format_no_ionization_check 14 200 rfl

end TardisUtil
